import Mathlib

/-!
Verification development for the TARS chatbot engine.

Shallow embedding of the Python sources under src/ :
  src/ai/llm_handler.py          (Provider Router / MultiProviderLLM)
  src/core/memory_store.py       (Memory Store)
  src/core/tars_engine.py        (Conversation Engine)
  src/ai/rag_system.py           (Knowledge Retriever)
  src/personality/response_generator.py (Personality Pipeline)

Modelling conventions:
- Python exceptions are modelled with `Except`; a handler that may raise is a
  function into `Except PyErr _`.
- Python floats in this code are only ever created from literals and compared
  (never rounded through arithmetic), so they are modelled exactly as `Rat`.
- Each `random.random()` draw and each `random.choice` pick is an explicit
  parameter (a rational draw, an index into the fixed template list), since the
  code has no seeding contract.
- External library calls (the OpenAI / Gemini HTTP clients, chromadb, hashlib,
  datetime) are modelled as parameters at the call boundary: the outcome of a
  provider call, the list of search hits, the hash function, the clock string.
- The apostrophe character in source string literals is rendered through
  `apoS` (the one-character string with code point 39).
-/

/-- String of the single apostrophe character (code point 39), used to build
the source string literals that contain apostrophes. -/
def apoS : String := String.mk [Char.ofNat 39]

/-- Python truthiness of a string: empty is falsy. -/
def pyTruthy (s : String) : Bool := s ≠ ""

/-- Characters removed by the Python str.strip() default (whitespace). -/
def isPySpace (c : Char) : Bool :=
  c = ' ' || c = '\t' || c = '\n' || c = '\r' || c = Char.ofNat 11 || c = Char.ofNat 12

/-- Embedding of Python str.strip(): drop leading and trailing whitespace. -/
def pyStrip (s : String) : String :=
  String.mk (((s.data.dropWhile isPySpace).reverse.dropWhile isPySpace).reverse)

/-- Embedding of Python str.lower() for the ASCII strings this code handles. -/
def pyLower (s : String) : String := String.mk (s.data.map Char.toLower)

/-- Substring occurrence on character lists (Python `needle in hay`). -/
def containsSub (hay needle : List Char) : Bool :=
  match hay with
  | [] => needle.isEmpty
  | _ :: t => needle.isPrefixOf hay || containsSub t needle

/-- Embedding of the Python `in` operator on strings. -/
def pyContains (hay needle : String) : Bool := containsSub hay.data needle.data

/-- Word characters for the `re` module word boundary (ASCII \w). -/
def isWordChar (c : Char) : Bool := c.isAlphanum || c = '_'

/-- Occurrence of `pat` in the remaining haystack with word boundaries on both
sides, given the character just before the current position. Embeds the
semantics of re.search for a pattern of the shape \b(w1|w2|...)\b applied to
one alternative. -/
def wordOccursFrom (pat : List Char) (prev : Option Char) (hay : List Char) : Bool :=
  (pat.isPrefixOf hay
    && (match prev with
        | none => true
        | some c => ! isWordChar c)
    && (match (hay.drop pat.length).head? with
        | none => true
        | some c => ! isWordChar c))
  || (match hay with
      | [] => false
      | c :: t => wordOccursFrom pat (some c) t)

/-- Embedding of re.search(r"\b(w1|w2|...)\b", hay): some alternative occurs
with word boundaries. -/
def pyWordSearch (hay : String) (pats : List String) : Bool :=
  pats.any (fun p => wordOccursFrom p.data none hay.data)

/-- Embedding of random.choice on a fixed non-empty list: the random pick is
abstracted as an index reduced modulo the list length. -/
def pyChoice (l : List String) (i : Nat) : String := l.getD (i % l.length) ""

/-- Truncation toward zero, the behaviour of the Python int() conversion on a
float. -/
def pyIntTrunc (q : Rat) : Int := if q < 0 then -((-q).floor) else q.floor

/-- Embedding of the Python slice l[i:] (negative start counts from the end;
note that i = 0 and i = -0 both keep the whole list). -/
def pySliceFrom (i : Int) (l : List α) : List α :=
  if i < 0 then l.drop (((l.length : Int) + i).toNat) else l.drop i.toNat

/-! ## Provider Router: src/ai/llm_handler.py, class MultiProviderLLM -/

/-- Opaque-payload model of a raised Python exception. -/
inductive PyErr where
  | indexError : PyErr
  | importError : PyErr
  | exc : PyErr
deriving DecidableEq, Repr

/-- Conversation history entries in LLM-API form: (role, content). -/
abbrev RoleContent := String × String

/-- Behaviour of one handler object at the call boundary: the outcome of
handler.generate(message, conversation_history). A returned string covers both
genuine model output and the in-character error strings the handlers produce
when they catch their own network errors; `Except.error` is an exception
escaping the handler. -/
abbrev LLMCall := String → List RoleContent → Except PyErr String

/-- The fixed degraded-mode message of MultiProviderLLM.generate
(src/ai/llm_handler.py line 311). -/
def allProvidersDownMessage : String :=
  "*Cue light goes dark* All my neural pathways are offline. Check your connections, slick."

/-- Embedding of the fallback loop of MultiProviderLLM.generate
(src/ai/llm_handler.py lines 304-311): try each fallback handler in order,
swallow its exception on failure, return the fixed message when the list is
exhausted. -/
def MultiProviderLLM.tryFallbacks : List LLMCall → String → List RoleContent → String
  | [], _, _ => allProvidersDownMessage
  | h :: rest, msg, hist =>
    match h msg hist with
    | .ok s => s
    | .error _ => MultiProviderLLM.tryFallbacks rest msg hist

/-- Embedding of MultiProviderLLM.generate (src/ai/llm_handler.py lines
295-311): try the primary handler, on any exception fall through to the
fallback loop. The return type `String` (not `Except`) records that the
method itself never raises. -/
def MultiProviderLLM.generate (primary : LLMCall) (fallbacks : List LLMCall)
    (msg : String) (hist : List RoleContent) : String :=
  match primary msg hist with
  | .ok s => s
  | .error _ => MultiProviderLLM.tryFallbacks fallbacks msg hist

/-- Number of fallback handlers actually invoked by the fallback loop: each
iteration of the for-loop calls exactly one handler, and the loop returns as
soon as one call returns normally. -/
def MultiProviderLLM.fallbacksInvoked : List LLMCall → String → List RoleContent → Nat
  | [], _, _ => 0
  | h :: rest, msg, hist =>
    match h msg hist with
    | .ok _ => 1
    | .error _ => 1 + MultiProviderLLM.fallbacksInvoked rest msg hist

/-- Helper: when every fallback handler raises, the loop returns the fixed
degraded-mode message. -/
theorem tryFallbacks_all_fail (fbs : List LLMCall) (msg : String) (hist : List RoleContent)
    (hall : ∀ h ∈ fbs, ∃ e, h msg hist = Except.error e) :
    MultiProviderLLM.tryFallbacks fbs msg hist = allProvidersDownMessage := by
  induction fbs with
  | nil => rfl
  | cons h rest ih =>
    obtain ⟨e, he⟩ := hall h (List.mem_cons_self h rest)
    simp only [MultiProviderLLM.tryFallbacks, he]
    exact ih (fun g hg => hall g (List.mem_cons_of_mem h hg))

/-- C1: if the primary handler and every fallback handler raise an exception,
MultiProviderLLM.generate returns the fixed all-providers-down degraded
message. No exception escapes the call: the embedding of generate returns a
plain String for every primary/fallback behaviour, mirroring that every
handler call in the source sits under a try/except. -/
theorem c1_all_providers_down (primary : LLMCall) (fallbacks : List LLMCall)
    (msg : String) (hist : List RoleContent)
    (hp : ∃ e, primary msg hist = Except.error e)
    (hall : ∀ h ∈ fallbacks, ∃ e, h msg hist = Except.error e) :
    MultiProviderLLM.generate primary fallbacks msg hist = allProvidersDownMessage := by
  obtain ⟨e, he⟩ := hp
  simp only [MultiProviderLLM.generate, he]
  exact tryFallbacks_all_fail fallbacks msg hist hall

/-- C1 witness: a concrete always-raising primary and two always-raising
fallbacks, on the message "hello" with empty history. -/
theorem c1_all_providers_down_witness :
    MultiProviderLLM.generate (fun _ _ => Except.error PyErr.exc)
      [fun _ _ => Except.error PyErr.exc, fun _ _ => Except.error PyErr.indexError]
      "hello" [] = allProvidersDownMessage :=
  c1_all_providers_down _ _ "hello" []
    ⟨PyErr.exc, rfl⟩
    (by
      intro h hh
      simp only [List.mem_cons, List.not_mem_nil, or_false] at hh
      rcases hh with rfl | rfl
      · exact ⟨PyErr.exc, rfl⟩
      · exact ⟨PyErr.indexError, rfl⟩)

/-! ## Provider construction: src/ai/llm_handler.py, get_llm_handler and
MultiProviderLLM._setup_fallbacks -/

/-- The four provider kinds admitted by the config field llm_provider
(a pydantic Literal in src/utils/config.py, so no other string reaches
get_llm_handler and its unknown-provider ValueError branch is unreachable). -/
inductive Provider where
  | openai
  | gemini
  | lm_studio
  | ollama
deriving DecidableEq, Repr

/-- The configuration fields of TARSConfig (src/utils/config.py) that the
provider-construction code reads, with the source defaults. All credential
and model fields are strings (never None). -/
structure LLMConfig where
  llm_provider : Provider
  openai_api_key : String := ""
  openai_model : String := ""
  gemini_api_key : String := ""
  gemini_model : String := ""
  lm_studio_base_url : String := "http://localhost:1234/v1"
  lm_studio_model : String := "meta-llama-3.2-1b-instruct-q4_0"
  ollama_base_url : String := "http://localhost:11434"
  ollama_model : String := "mistral"
deriving DecidableEq, Repr

/-- Embedding of the Python `x or default` idiom on an optional string
argument: None and the empty string both fall through to the default. -/
def pyOrStr (x : Option String) (d : String) : String :=
  match x with
  | none => d
  | some s => if s = "" then d else s

/-- Which handler class a constructed handler object belongs to. -/
inductive HandlerClass where
  | openaiHandler
  | lmStudioHandler
  | ollamaHandler
  | geminiHandler
deriving DecidableEq, Repr

/-- State of a handler object after construction: its class and the
endpoint/credential/model identity it owns. -/
structure HandlerInit where
  cls : HandlerClass
  base_url : String
  api_key : String
  model : String
deriving DecidableEq, Repr

/-- Embedding of OpenAIHandler.__init__ (src/ai/llm_handler.py lines 54-64).
It stores the three identity fields and builds the external OpenAI client.
That client constructor is modelled as non-raising: the openai package
rejects only a None api key, and config.openai_api_key is always a string
(default ""). Hence construction is total. -/
def OpenAIHandler.init (cfg : LLMConfig)
    (base_url api_key model : Option String) : HandlerInit :=
  { cls := HandlerClass.openaiHandler
    base_url := pyOrStr base_url "https://api.openai.com/v1"
    api_key := pyOrStr api_key cfg.openai_api_key
    model := pyOrStr model cfg.openai_model }

/-- Embedding of LMStudioHandler.__init__ (lines 109-115): delegate to the
OpenAI-compatible constructor with the LM Studio endpoint, a dummy key and
the LM Studio model. -/
def LMStudioHandler.init (cfg : LLMConfig) : HandlerInit :=
  { OpenAIHandler.init cfg (some cfg.lm_studio_base_url) (some "lm-studio")
      (some cfg.lm_studio_model) with
    cls := HandlerClass.lmStudioHandler }

/-- Embedding of OllamaHandler.__init__ (lines 121-130): OpenAI-compatible
client against base_url + "/v1" with a dummy key. -/
def OllamaHandler.init (cfg : LLMConfig) : HandlerInit :=
  { cls := HandlerClass.ollamaHandler
    base_url := cfg.ollama_base_url ++ "/v1"
    api_key := "ollama"
    model := cfg.ollama_model }

/-- Embedding of GeminiHandler.__init__ (lines 175-185): raises ImportError
when the google-generativeai package is absent; otherwise configures the
external client (genai.configure stores the key without validating it and
GenerativeModel performs no network call at construction, so both are
modelled as non-raising). -/
def GeminiHandler.init (geminiAvailable : Bool) (cfg : LLMConfig) :
    Except PyErr HandlerInit :=
  if geminiAvailable then
    Except.ok
      { cls := HandlerClass.geminiHandler
        base_url := ""
        api_key := cfg.gemini_api_key
        model := cfg.gemini_model }
  else Except.error PyErr.importError

/-- Embedding of get_llm_handler (src/ai/llm_handler.py lines 227-251):
dispatch on the configured provider. The result is the constructed primary
handler, or the construction-time exception. -/
def get_llm_handler (geminiAvailable : Bool) (cfg : LLMConfig) :
    Except PyErr HandlerInit :=
  match cfg.llm_provider with
  | Provider.openai => Except.ok (OpenAIHandler.init cfg none none none)
  | Provider.gemini => GeminiHandler.init geminiAvailable cfg
  | Provider.lm_studio => Except.ok (LMStudioHandler.init cfg)
  | Provider.ollama => Except.ok (OllamaHandler.init cfg)

/-- Embedding of MultiProviderLLM._create_handler_for_provider (lines
283-293): local providers are always constructed; gemini only when the
package is importable and the key is truthy; openai only when the key is
truthy; otherwise None. -/
def createHandlerForProvider (geminiAvailable : Bool) (cfg : LLMConfig) :
    Provider → Option HandlerInit
  | Provider.lm_studio => some (LMStudioHandler.init cfg)
  | Provider.ollama => some (OllamaHandler.init cfg)
  | Provider.gemini =>
    if geminiAvailable && pyTruthy cfg.gemini_api_key then
      some
        { cls := HandlerClass.geminiHandler
          base_url := ""
          api_key := cfg.gemini_api_key
          model := cfg.gemini_model }
    else none
  | Provider.openai =>
    if pyTruthy cfg.openai_api_key then
      some (OpenAIHandler.init cfg none none none)
    else none

/-- The fixed probe order of _setup_fallbacks (line 270). -/
def providersToTry : List Provider :=
  [Provider.lm_studio, Provider.ollama, Provider.gemini, Provider.openai]

/-- Embedding of MultiProviderLLM._setup_fallbacks (lines 268-281): walk the
fixed probe order, skip the primary, append each successfully created
handler. The try/except around creation is subsumed by the Option result
(the modelled constructors do not raise). -/
def MultiProviderLLM.setupFallbacks (geminiAvailable : Bool) (cfg : LLMConfig) :
    List HandlerInit :=
  providersToTry.foldl
    (fun acc p =>
      if p ≠ cfg.llm_provider then
        match createHandlerForProvider geminiAvailable cfg p with
        | some h => acc ++ [h]
        | none => acc
      else acc)
    []

/-- Spec-side credential predicate for claim C3: local providers need no
credentials; gemini needs the package and a key; openai needs a key. -/
def hasRequiredCredentials (geminiAvailable : Bool) (cfg : LLMConfig) :
    Provider → Bool
  | Provider.lm_studio => true
  | Provider.ollama => true
  | Provider.gemini => geminiAvailable && pyTruthy cfg.gemini_api_key
  | Provider.openai => pyTruthy cfg.openai_api_key

/-- Spec-side handler for a credentialed fallback provider. -/
def fallbackHandlerFor (cfg : LLMConfig) : Provider → HandlerInit
  | Provider.lm_studio => LMStudioHandler.init cfg
  | Provider.ollama => OllamaHandler.init cfg
  | Provider.gemini =>
    { cls := HandlerClass.geminiHandler
      base_url := ""
      api_key := cfg.gemini_api_key
      model := cfg.gemini_model }
  | Provider.openai => OpenAIHandler.init cfg none none none

/-- Helper: when every fallback handler before `s` raises and `s` returns
normally, the fallback loop returns the output of `s` and invokes exactly the
handlers up to and including `s`. -/
theorem tryFallbacks_first_success (pre post : List LLMCall) (s : LLMCall)
    (msg : String) (hist : List RoleContent) (v : String)
    (hpre : ∀ h ∈ pre, ∃ e, h msg hist = Except.error e)
    (hs : s msg hist = Except.ok v) :
    MultiProviderLLM.tryFallbacks (pre ++ s :: post) msg hist = v ∧
    MultiProviderLLM.fallbacksInvoked (pre ++ s :: post) msg hist = pre.length + 1 := by
  induction pre with
  | nil =>
    simp [MultiProviderLLM.tryFallbacks, MultiProviderLLM.fallbacksInvoked, hs]
  | cons h rest ih =>
    obtain ⟨e, he⟩ := hpre h (List.mem_cons_self h rest)
    have hrest := ih (fun g hg => hpre g (List.mem_cons_of_mem h hg))
    constructor
    · simpa [MultiProviderLLM.tryFallbacks, he] using hrest.1
    · have : MultiProviderLLM.fallbacksInvoked ((h :: rest) ++ s :: post) msg hist
          = 1 + MultiProviderLLM.fallbacksInvoked (rest ++ s :: post) msg hist := by
        simp [MultiProviderLLM.fallbacksInvoked, he]
      rw [this, hrest.2]
      simp [Nat.add_comm]

/-- C3: the fallback handler list equals the fixed priority order
[lm_studio, ollama, gemini, openai] with the primary provider removed and
providers lacking required credentials skipped; and generate tries the
primary first then the fallbacks in list order, returning the first
successful result — if the primary raises and exactly one fallback succeeds,
generate returns that output and the handlers after it are never invoked
(the number of fallback calls is the position of the succeeding handler). -/
theorem c3_fallback_list_and_order :
    (∀ (g : Bool) (cfg : LLMConfig),
      MultiProviderLLM.setupFallbacks g cfg =
        (providersToTry.filter
          (fun p => (decide (p ≠ cfg.llm_provider)) && hasRequiredCredentials g cfg p)).map
          (fallbackHandlerFor cfg))
    ∧ (∀ (primary s : LLMCall) (pre post : List LLMCall) (msg : String)
        (hist : List RoleContent) (v : String),
        (∃ e, primary msg hist = Except.error e) →
        (∀ h ∈ pre, ∃ e, h msg hist = Except.error e) →
        s msg hist = Except.ok v →
        MultiProviderLLM.generate primary (pre ++ s :: post) msg hist = v ∧
        MultiProviderLLM.fallbacksInvoked (pre ++ s :: post) msg hist = pre.length + 1) := by
  constructor
  · intro g cfg
    obtain ⟨prov, ok_, om_, gk_, gm_, lb_, lm_, ob_, od_⟩ := cfg
    cases hgem : (g && pyTruthy gk_) <;> cases hopn : pyTruthy ok_ <;>
      cases prov <;>
        simp [MultiProviderLLM.setupFallbacks, providersToTry,
          createHandlerForProvider, hasRequiredCredentials, fallbackHandlerFor,
          hgem, hopn]
  · intro primary s pre post msg hist v hp hpre hs
    obtain ⟨e, he⟩ := hp
    have := tryFallbacks_first_success pre post s msg hist v hpre hs
    exact ⟨by simp [MultiProviderLLM.generate, he, this.1], this.2⟩

/-- C3 witness: with primary = ollama, no gemini package and an openai key
set, the fallback list is [lm_studio handler, openai handler]; and a failing
primary followed by [failing, succeeding, failing] fallbacks yields the
succeeding output with exactly two fallback handlers invoked. -/
theorem c3_fallback_list_and_order_witness :
    MultiProviderLLM.setupFallbacks false
        { llm_provider := Provider.ollama, openai_api_key := "sk-x" } =
      (providersToTry.filter
        (fun p => (decide (p ≠ Provider.ollama)) &&
          hasRequiredCredentials false
            { llm_provider := Provider.ollama, openai_api_key := "sk-x" } p)).map
        (fallbackHandlerFor { llm_provider := Provider.ollama, openai_api_key := "sk-x" }) ∧
    MultiProviderLLM.generate (fun _ _ => Except.error PyErr.exc)
        ([fun _ _ => Except.error PyErr.exc] ++
          (fun _ _ => Except.ok "from the second fallback") ::
          [fun _ _ => Except.error PyErr.exc]) "hello" [] = "from the second fallback" ∧
    MultiProviderLLM.fallbacksInvoked
        ([fun _ _ => Except.error PyErr.exc] ++
          (fun _ _ => Except.ok "from the second fallback") ::
          [fun _ _ => Except.error PyErr.exc]) "hello" [] = 2 := by
  refine ⟨c3_fallback_list_and_order.1 false _, ?_⟩
  have := c3_fallback_list_and_order.2 (fun _ _ => Except.error PyErr.exc)
    (fun _ _ => Except.ok "from the second fallback")
    [fun _ _ => Except.error PyErr.exc] [fun _ _ => Except.error PyErr.exc]
    "hello" [] "from the second fallback"
    ⟨PyErr.exc, rfl⟩
    (by
      intro h hh
      simp only [List.mem_singleton] at hh
      subst hh
      exact ⟨PyErr.exc, rfl⟩)
    rfl
  exact ⟨this.1, this.2⟩

/-- C4 counterexample: a configuration selecting openai as primary with an
empty api key and an empty model identifier. Engine construction does not
fail: get_llm_handler returns a constructed handler (the OpenAI client
accepts a string-valued key without validation), so no error aborts
startup. -/
theorem c4_counterexample_no_abort :
    get_llm_handler true { llm_provider := Provider.openai } =
      Except.ok
        { cls := HandlerClass.openaiHandler
          base_url := "https://api.openai.com/v1"
          api_key := ""
          model := "" } := rfl

/-- C4 amended: building the primary handler performs no credential or model
validation; for every configuration whose primary is not gemini (and for
gemini whenever the package is importable), construction succeeds, whatever
the credential and model fields hold. Missing credentials surface only at
call time, inside the handlers. -/
theorem c4_construction_never_checks_credentials (g : Bool) (cfg : LLMConfig)
    (hg : cfg.llm_provider = Provider.gemini → g = true) :
    ∃ h, get_llm_handler g cfg = Except.ok h := by
  unfold get_llm_handler
  cases hp : cfg.llm_provider with
  | openai => exact ⟨_, rfl⟩
  | gemini =>
    rw [hg hp]
    exact ⟨_, rfl⟩
  | lm_studio => exact ⟨_, rfl⟩
  | ollama => exact ⟨_, rfl⟩

/-- C4 amended witness: the openai primary with all credential fields left at
their empty defaults constructs successfully. -/
theorem c4_construction_never_checks_credentials_witness :
    ∃ h, get_llm_handler false { llm_provider := Provider.openai } = Except.ok h :=
  c4_construction_never_checks_credentials false { llm_provider := Provider.openai }
    (by decide)

/-! ## Memory Store: src/core/memory_store.py -/

/-- Embedding of the Message dataclass. The timestamp (datetime.now) is
supplied by the caller at the boundary. -/
structure MessageS where
  role : String
  content : String
  timestamp : String
  metadata : List (String × String) := []
deriving DecidableEq, Repr

/-- Embedding of the Conversation dataclass. -/
structure ConversationS where
  id : String
  messages : List MessageS := []
  created_at : String := ""
  metadata : List (String × String) := []
deriving DecidableEq, Repr

/-- Embedding of Message.to_dict: strip to (role, content). -/
def MessageS.toDict (m : MessageS) : RoleContent := (m.role, m.content)

/-- Embedding of Conversation.add_message: append a fresh message. -/
def ConversationS.addMessage (c : ConversationS) (role content timestamp : String)
    (metadata : List (String × String)) : MessageS × ConversationS :=
  let msg : MessageS :=
    { role := role, content := content, timestamp := timestamp, metadata := metadata }
  (msg, { c with messages := c.messages ++ [msg] })

/-- Embedding of Conversation.get_history: when max_messages is truthy
(neither None nor 0) keep the slice messages[-max_messages:], then project
each message to (role, content). -/
def ConversationS.getHistory (c : ConversationS) (max_messages : Option Int) :
    List RoleContent :=
  let msgs :=
    match max_messages with
    | none => c.messages
    | some m => if m = 0 then c.messages else pySliceFrom (-m) c.messages
  msgs.map MessageS.toDict

/-- In-memory state of the MemoryStore class. Persistence (_save_conversation
and _load_conversations) is disk I/O with no effect on the in-memory fields,
so the save calls are no-ops of this state. -/
structure MemoryStoreS where
  conversations : List (String × ConversationS) := []
  active_conversation_id : Option String := none
  max_messages : Int := 50
  auto_save : Bool := true
deriving DecidableEq, Repr

/-- Python dict assignment d[k] = v: replace in place when the key exists,
append otherwise (insertion order preserved). -/
def dictSet : List (String × α) → String → α → List (String × α)
  | [], k, v => [(k, v)]
  | (k1, v1) :: t, k, v =>
    if k1 = k then (k, v) :: t else (k1, v1) :: dictSet t k v

/-- Embedding of MemoryStore.create_conversation (lines 82-96): genId stands
for the generated time-based id and created_at for datetime.now(). -/
def MemoryStore.createConversation (st : MemoryStoreS) (genId created_at : String)
    (conversation_id : Option String) : ConversationS × MemoryStoreS :=
  let cid := conversation_id.getD genId
  let conv : ConversationS := { id := cid, created_at := created_at }
  (conv,
    { st with
      conversations := dictSet st.conversations cid conv
      active_conversation_id := some cid })

/-- Embedding of MemoryStore.get_conversation (lines 98-103): the Python
`conversation_id or self.active_conversation_id` falls through on None and
on the empty string. -/
def MemoryStore.getConversation (st : MemoryStoreS) (conversation_id : Option String) :
    Option ConversationS :=
  let conv_id :=
    match conversation_id with
    | some s => if s = "" then st.active_conversation_id else some s
    | none => st.active_conversation_id
  match conv_id with
  | none => none
  | some cid => st.conversations.lookup cid

/-- Embedding of MemoryStore.get_or_create_active (lines 105-109); the guard
tests the truthiness of the active id and its presence in the dict. -/
def MemoryStore.getOrCreateActive (st : MemoryStoreS) (genId created_at : String) :
    ConversationS × MemoryStoreS :=
  match st.active_conversation_id with
  | some cid =>
    if cid ≠ "" then
      match st.conversations.lookup cid with
      | some conv => (conv, st)
      | none => MemoryStore.createConversation st genId created_at none
    else MemoryStore.createConversation st genId created_at none
  | none => MemoryStore.createConversation st genId created_at none

/-- Embedding of MemoryStore.add_message (src/core/memory_store.py lines
111-132): fetch the target (or active) conversation, creating one when
absent; append the message; when the resulting length exceeds max_messages,
keep the Python slice messages[-max_messages:]. -/
def MemoryStore.addMessage (st : MemoryStoreS) (role content : String)
    (conversation_id : Option String) (metadata : List (String × String))
    (timestamp genId created_at : String) : MessageS × MemoryStoreS :=
  let convSt :=
    match MemoryStore.getConversation st conversation_id with
    | some c => (c, st)
    | none => MemoryStore.createConversation st genId created_at none
  let msgConv := convSt.1.addMessage role content timestamp metadata
  let conv2 :=
    { msgConv.2 with
      messages :=
        if (msgConv.2.messages.length : Int) > convSt.2.max_messages then
          pySliceFrom (-convSt.2.max_messages) msgConv.2.messages
        else msgConv.2.messages }
  (msgConv.1,
    { convSt.2 with conversations := dictSet convSt.2.conversations conv2.id conv2 })

/-- Embedding of MemoryStore.get_history (lines 134-143). -/
def MemoryStore.getHistory (st : MemoryStoreS) (conversation_id : Option String)
    (max_messages : Option Int) : List RoleContent :=
  match MemoryStore.getConversation st conversation_id with
  | none => []
  | some conv => conv.getHistory max_messages

/-- The conversation add_message appends to, before the append: the looked-up
conversation, or the fresh one create_conversation builds. -/
def targetConversation (st : MemoryStoreS) (conversation_id : Option String)
    (genId created_at : String) : ConversationS :=
  match MemoryStore.getConversation st conversation_id with
  | some c => c
  | none => { id := genId, created_at := created_at }

/-- Helper: looking up the assigned key after a dict assignment yields the
assigned value. -/
theorem dictSet_lookup_self (d : List (String × α)) (k : String) (v : α) :
    (dictSet d k v).lookup k = some v := by
  induction d with
  | nil => simp [dictSet, List.lookup]
  | cons p t ih =>
    obtain ⟨k1, v1⟩ := p
    by_cases h : k1 = k
    · simp [dictSet, h, List.lookup]
    · simp only [dictSet, if_neg h, List.lookup]
      have : (k == k1) = false := by
        simp [beq_iff_eq]
        exact fun hk => h hk.symm
      simp [this, ih]

/-- Helper: every entry of a dict after assignment is the assigned pair or an
entry of the old dict. -/
theorem dictSet_mem (d : List (String × α)) (k : String) (v : α)
    (p : String × α) (hp : p ∈ dictSet d k v) : p = (k, v) ∨ p ∈ d := by
  induction d with
  | nil => simpa [dictSet] using hp
  | cons q t ih =>
    obtain ⟨k1, v1⟩ := q
    by_cases h : k1 = k
    · simp only [dictSet, if_pos h, List.mem_cons] at hp
      rcases hp with rfl | hp
      · exact Or.inl rfl
      · exact Or.inr (List.mem_cons_of_mem _ hp)
    · simp only [dictSet, if_neg h, List.mem_cons] at hp
      rcases hp with rfl | hp
      · exact Or.inr (List.mem_cons_self _ _)
      · rcases ih hp with h1 | h1
        · exact Or.inl h1
        · exact Or.inr (List.mem_cons_of_mem _ h1)

/-- Helper: the trimming step of add_message bounds the length by the
maximum whenever the maximum is at least 1. -/
theorem trimmed_length_le (m : Int) (hm : 1 ≤ m) (l : List α) :
    ((if (l.length : Int) > m then pySliceFrom (-m) l else l).length : Int) ≤ m := by
  split
  · next h =>
    have hneg : -m < 0 := by omega
    simp only [pySliceFrom, if_pos hneg, List.length_drop]
    omega
  · next h => omega

/-- Helper: the trimming step only ever drops a prefix. -/
theorem trimmed_suffix (m : Int) (l : List α) :
    (if (l.length : Int) > m then pySliceFrom (-m) l else l) <:+ l := by
  split
  · unfold pySliceFrom
    split <;> exact List.drop_suffix _ _
  · exact List.suffix_refl l

/-- C2 amended: when the configured maximum is at least 1, every add_message
call keeps every conversation at or below the maximum (given the invariant
held before), and the target conversation afterwards is a suffix of its old
message list extended by the new message — the oldest messages are the ones
dropped. -/
theorem c2_add_message_bounds (st : MemoryStoreS) (role content : String)
    (cid : Option String) (md : List (String × String)) (ts gid cat : String)
    (hmax : 1 ≤ st.max_messages)
    (hinv : ∀ p ∈ st.conversations, (p.2.messages.length : Int) ≤ st.max_messages) :
    (∀ p ∈ (MemoryStore.addMessage st role content cid md ts gid cat).2.conversations,
      (p.2.messages.length : Int) ≤ st.max_messages) ∧
    (∃ c2,
      ((MemoryStore.addMessage st role content cid md ts gid cat).2.conversations.lookup
        (targetConversation st cid gid cat).id) = some c2 ∧
      c2.messages <:+ ((targetConversation st cid gid cat).messages ++
        [{ role := role, content := content, timestamp := ts, metadata := md }]) ∧
      (c2.messages.length : Int) ≤ st.max_messages) := by
  unfold MemoryStore.addMessage targetConversation
  cases hget : MemoryStore.getConversation st cid with
  | some c =>
    simp only [hget, ConversationS.addMessage, MemoryStore.createConversation]
    constructor
    · intro p hp
      rcases dictSet_mem _ _ _ p hp with rfl | hpold
      · exact trimmed_length_le st.max_messages hmax _
      · exact hinv p hpold
    · exact ⟨_, dictSet_lookup_self _ _ _, trimmed_suffix _ _,
        trimmed_length_le st.max_messages hmax _⟩
  | none =>
    simp only [hget, ConversationS.addMessage, MemoryStore.createConversation,
      Option.getD]
    constructor
    · intro p hp
      rcases dictSet_mem _ _ _ p hp with rfl | hpold
      · exact trimmed_length_le st.max_messages hmax _
      · rcases dictSet_mem _ _ _ p hpold with rfl | hpold2
        · simp
          omega
        · exact hinv p hpold2
    · exact ⟨_, dictSet_lookup_self _ _ _, trimmed_suffix _ _,
        trimmed_length_le st.max_messages hmax _⟩

/-- C2 witness: a store at its default maximum of 50 holding one conversation
with one message; adding a message preserves the bound, and the stored
target conversation is a suffix of the old messages plus the new one. -/
theorem c2_add_message_bounds_witness :
    (∀ p ∈ (MemoryStore.addMessage
        { conversations :=
            [("c1", { id := "c1",
                      messages := [{ role := "user", content := "hi", timestamp := "t1" }] })]
          active_conversation_id := some "c1" }
        "assistant" "hello there" none [] "t2" "g" "t0").2.conversations,
      (p.2.messages.length : Int) ≤
        (({ conversations :=
              [("c1", { id := "c1",
                        messages := [{ role := "user", content := "hi", timestamp := "t1" }] })]
            active_conversation_id := some "c1" } : MemoryStoreS)).max_messages) ∧
    (∃ c2,
      ((MemoryStore.addMessage
          { conversations :=
              [("c1", { id := "c1",
                        messages := [{ role := "user", content := "hi", timestamp := "t1" }] })]
            active_conversation_id := some "c1" }
          "assistant" "hello there" none [] "t2" "g" "t0").2.conversations.lookup
        (targetConversation
          { conversations :=
              [("c1", { id := "c1",
                        messages := [{ role := "user", content := "hi", timestamp := "t1" }] })]
            active_conversation_id := some "c1" } none "g" "t0").id) = some c2 ∧
      c2.messages <:+ ((targetConversation
          { conversations :=
              [("c1", { id := "c1",
                        messages := [{ role := "user", content := "hi", timestamp := "t1" }] })]
            active_conversation_id := some "c1" } none "g" "t0").messages ++
        [{ role := "assistant", content := "hello there", timestamp := "t2", metadata := [] }]) ∧
      (c2.messages.length : Int) ≤
        (({ conversations :=
              [("c1", { id := "c1",
                        messages := [{ role := "user", content := "hi", timestamp := "t1" }] })]
            active_conversation_id := some "c1" } : MemoryStoreS)).max_messages) :=
  c2_add_message_bounds _ "assistant" "hello there" none [] "t2" "g" "t0"
    (by decide)
    (by
      intro p hp
      simp only [List.mem_singleton] at hp
      subst hp
      decide)

/-- C2 counterexample: with the configured maximum set to 0, the Python slice
messages[-0:] keeps the whole list, so one add_message call leaves the
conversation with 1 message, exceeding the maximum. -/
theorem c2_counterexample_max_zero :
    ∃ c2,
      ((MemoryStore.addMessage
          { conversations := [("c1", { id := "c1" })]
            active_conversation_id := some "c1"
            max_messages := 0 }
          "user" "hi" none [] "t1" "g" "t0").2.conversations.lookup "c1") = some c2 ∧
      (0 : Int) < c2.messages.length :=
  ⟨{ id := "c1", messages := [{ role := "user", content := "hi", timestamp := "t1" }] },
    by decide, by decide⟩

/-! ## Knowledge Retriever: src/ai/rag_system.py -/

/-- One formatted hit of VectorStore.search (src/ai/vector_store.py lines
156-166): id, text, the metadata fields retrieve reads, and the L2 distance.
The topic key may be missing from the metadata (retrieve falls back to
"general"). -/
structure RetrievalHit where
  id : String
  text : String
  topic : Option String := none
  source : String := ""
  distance : Rat
deriving DecidableEq, Repr

/-- Embedding of RAGSystem.retrieve (src/ai/rag_system.py lines 204-262).
The embedding step, the vector search and the optional topic filter are
external (chromadb); their combined outcome for the given query, n_results
and topic is the `results` parameter. The body keeps the hits with distance
strictly below 2.0, returns the empty string when none survive (or the
search returned nothing), and otherwise joins the labelled reference blocks
with the fixed delimiter. -/
def RAGSystem.retrieve (query : String) (n_results : Nat) (topic : Option String)
    (min_relevance : Rat) (results : List RetrievalHit) : String :=
  if results = [] then ""
  else
    let relevant_results := results.filter (fun r => r.distance < 2)
    if relevant_results = [] then ""
    else
      let context_parts := relevant_results.enum.map (fun p =>
        "[Reference " ++ toString (p.1 + 1) ++ " - " ++ p.2.topic.getD "general" ++ "]\n"
          ++ p.2.text)
      String.intercalate "\n\n---\n\n" context_parts

/-- C6: retrieve discards hits at distance 2.0 or beyond; when every
candidate hit is at distance at least 2.0 the result is the empty string;
the surviving hits are joined as labelled reference blocks separated by the
fixed delimiter. -/
theorem c6_retrieve_distance_filter :
    (∀ (query : String) (n : Nat) (topic : Option String) (mr : Rat)
        (results : List RetrievalHit),
      (∀ r ∈ results, (2 : Rat) ≤ r.distance) →
      RAGSystem.retrieve query n topic mr results = "")
    ∧ (∀ (query : String) (n : Nat) (topic : Option String) (mr : Rat)
        (results : List RetrievalHit),
      RAGSystem.retrieve query n topic mr results =
        (let survivors := results.filter (fun r => r.distance < 2)
         if survivors = [] then ""
         else String.intercalate "\n\n---\n\n" (survivors.enum.map (fun p =>
           "[Reference " ++ toString (p.1 + 1) ++ " - " ++ p.2.topic.getD "general" ++ "]\n"
             ++ p.2.text)))) := by
  constructor
  · intro query n topic mr results hall
    have hfilter : results.filter (fun r => r.distance < 2) = [] := by
      rw [List.filter_eq_nil]
      intro r hr
      simpa using not_lt.mpr (hall r hr)
    unfold RAGSystem.retrieve
    split
    · rfl
    · simp [hfilter]
  · intro query n topic mr results
    unfold RAGSystem.retrieve
    by_cases hres : results = []
    · subst hres
      simp
    · simp [hres]

/-- C6 witness: two hits at distances exactly 2.0 and 3.5 are both
discarded, so retrieve returns the empty string; and the general shape
equation instantiated at one surviving hit. -/
theorem c6_retrieve_distance_filter_witness :
    RAGSystem.retrieve "black holes" 3 none (3/10)
      [{ id := "d1", text := "t1", distance := 2 },
       { id := "d2", text := "t2", distance := 7/2 }] = "" ∧
    RAGSystem.retrieve "black holes" 3 none (3/10)
      [{ id := "d1", text := "hawking radiation", topic := some "black_holes",
         distance := 1/2 }] =
      (let survivors :=
        [({ id := "d1", text := "hawking radiation", topic := some "black_holes",
            distance := 1/2 } : RetrievalHit)].filter (fun r => r.distance < 2)
       if survivors = [] then ""
       else String.intercalate "\n\n---\n\n" (survivors.enum.map (fun p =>
         "[Reference " ++ toString (p.1 + 1) ++ " - " ++ p.2.topic.getD "general" ++ "]\n"
           ++ p.2.text))) :=
  ⟨c6_retrieve_distance_filter.1 "black holes" 3 none (3/10) _
      (by
        intro r hr
        simp only [List.mem_cons, List.not_mem_nil, or_false] at hr
        rcases hr with rfl | rfl
        · norm_num
        · norm_num),
    c6_retrieve_distance_filter.2 "black holes" 3 none (3/10) _⟩

/-- C9: the min_relevance parameter of retrieve is dead — for the same
search outcome (query, n_results, topic and store state fixed), any two
values of min_relevance yield the same text; only the fixed distance < 2.0
ceiling filters hits. -/
theorem c9_min_relevance_unused (query : String) (n : Nat) (topic : Option String)
    (a b : Rat) (results : List RetrievalHit) :
    RAGSystem.retrieve query n topic a results =
      RAGSystem.retrieve query n topic b results := rfl

/-! ## Indexing: RAGSystem.index_directory (src/ai/rag_system.py 144-202) -/

/-- One parsed Q&A record of DatasetLoader (src/ai/rag_system.py lines
41-81). -/
structure QAEntry where
  id : String
  question : String
  answer : String
  context : String := ""
  topic : String := "general"
  source : String := ""
deriving DecidableEq, Repr

/-- Document id of an entry: the entry id joined with the content hash of
question + answer. hashlib.md5(...).hexdigest()[:12] is external and is
abstracted as the `hash` function. -/
def docIdOf (hash : String → String) (e : QAEntry) : String :=
  e.id ++ "_" ++ hash (e.question ++ e.answer)

/-- One iteration of the indexing loop (lines 164-188): skip the entry when
its document id is already tracked, otherwise collect the id and track it.
The accumulator is (doc_ids, _loaded_datasets); texts and metadata flow to
the external vector store and do not influence the count. -/
def indexStep (hash : String → String) (acc : List String × List String)
    (e : QAEntry) : List String × List String :=
  let doc_id := docIdOf hash e
  if doc_id ∈ acc.2 then acc
  else (acc.1 ++ [doc_id], acc.2 ++ [doc_id])

/-- Embedding of RAGSystem.index_directory: the directory listing and YAML
parsing are external and deterministic in the directory contents, so the
parsed `entries` stand for the directory; `loaded` is the instance state
_loaded_datasets. Returns the count of newly indexed documents and the new
state. -/
def RAGSystem.indexDirectory (hash : String → String) (entries : List QAEntry)
    (loaded : List String) : Nat × List String :=
  if entries = [] then (0, loaded)
  else
    let res := entries.foldl (indexStep hash) ([], loaded)
    (res.1.length, res.2)

/-- Helper: the tracked-id set only grows along the indexing loop. -/
theorem foldl_indexStep_mono (hash : String → String) (entries : List QAEntry) :
    ∀ (acc : List String × List String) (x : String),
      x ∈ acc.2 → x ∈ (entries.foldl (indexStep hash) acc).2 := by
  induction entries with
  | nil => intro acc x hx; simpa using hx
  | cons e t ih =>
    intro acc x hx
    refine ih (indexStep hash acc e) x ?_
    by_cases hd : docIdOf hash e ∈ acc.2
    · simpa [indexStep, hd] using hx
    · simp [indexStep, hd, hx]

/-- Helper: after the indexing loop, every processed entry has its document
id tracked. -/
theorem foldl_indexStep_mem (hash : String → String) (entries : List QAEntry) :
    ∀ (acc : List String × List String) (e : QAEntry), e ∈ entries →
      docIdOf hash e ∈ (entries.foldl (indexStep hash) acc).2 := by
  induction entries with
  | nil => intro acc e he; simp at he
  | cons e0 t ih =>
    intro acc e he
    rcases List.mem_cons.mp he with rfl | he
    · refine foldl_indexStep_mono hash t (indexStep hash acc e) (docIdOf hash e) ?_
      by_cases hd : docIdOf hash e ∈ acc.2
      · simpa [indexStep, hd] using hd
      · simp [indexStep, hd]
    · exact ih (indexStep hash acc e0) e he

/-- Helper: when every entry is already tracked, the indexing loop does
nothing. -/
theorem foldl_indexStep_noop (hash : String → String) (entries : List QAEntry) :
    ∀ (acc : List String × List String),
      (∀ e ∈ entries, docIdOf hash e ∈ acc.2) →
      entries.foldl (indexStep hash) acc = acc := by
  induction entries with
  | nil => intro acc _; rfl
  | cons e t ih =>
    intro acc hall
    have he : docIdOf hash e ∈ acc.2 := hall e (List.mem_cons_self e t)
    have hstep : indexStep hash acc e = acc := by
      unfold indexStep
      simp [he]
    rw [List.foldl_cons, hstep]
    exact ih acc (fun e2 h2 => hall e2 (List.mem_cons_of_mem e h2))

/-- C7: indexing is idempotent within one instance — running
index_directory a second time over the same (unchanged) parsed directory
skips every already-hashed document id: it reports 0 newly indexed
documents and leaves the tracked-id state unchanged. -/
theorem c7_index_directory_idempotent (hash : String → String)
    (entries : List QAEntry) (loaded : List String) :
    (RAGSystem.indexDirectory hash entries
      (RAGSystem.indexDirectory hash entries loaded).2).1 = 0 ∧
    (RAGSystem.indexDirectory hash entries
      (RAGSystem.indexDirectory hash entries loaded).2).2 =
      (RAGSystem.indexDirectory hash entries loaded).2 := by
  unfold RAGSystem.indexDirectory
  by_cases he : entries = []
  · subst he
    simp
  · simp only [if_neg he]
    have hmem : ∀ e ∈ entries, docIdOf hash e ∈
        (entries.foldl (indexStep hash) ([], loaded)).2 :=
      fun e hin => foldl_indexStep_mem hash entries ([], loaded) e hin
    have hnoop := foldl_indexStep_noop hash entries
      ([], (entries.foldl (indexStep hash) ([], loaded)).2) (by simpa using hmem)
    rw [hnoop]
    simp

/-! ## Personality Pipeline: src/personality/response_generator.py -/

/-- The random draws and template picks one enhancement pass can consume.
Each random.random() call is a rational in [0,1) supplied here; each
random.choice pick is an index (reduced modulo the template list length).
The defaults are inert: no probabilistic branch triggers. -/
structure PersonalityRng where
  hedgeIdx : Nat := 0
  honestyRand : Rat := 1
  honestIdx : Nat := 0
  humorRand : Rat := 1
  humorType : Rat := 1
  prefixIdx : Nat := 0
  suffixIdx : Nat := 0
  missionIdx : Nat := 0
  cueRand : Rat := 1
  cueIdx : Nat := 0
deriving DecidableEq, Repr

/-- CueLight.ACTIONS (lines 20-28). -/
def CueLight.ACTIONS : List String :=
  [ "*Cue light flashes*",
    "*Cue light blinks*",
    "*Cue light dims thoughtfully*",
    "*Cue light flickers*",
    "*Cue light pulses*",
    "*Cue light glows brighter*",
    "*Cue light rotates*" ]

/-- Embedding of CueLight.random_action. -/
def CueLight.randomAction (i : Nat) : String := pyChoice CueLight.ACTIONS i

/-- Embedding of CueLight.maybe_add (lines 36-40). -/
def CueLight.maybeAdd (rand : Rat) (i : Nat) (probability : Rat) : String :=
  if rand < probability then " " ++ CueLight.randomAction i else ""

/-- HumorController.SARCASTIC_PREFIXES (lines 46-54). -/
def HumorController.sarcasticPrefixes : List String :=
  [ "Oh, look at that—",
    "Let me guess—",
    "Fascinating. ",
    "Well, well, well—",
    "How original—",
    "Shocking revelation: ",
    "Hold onto your seat—" ]

/-- HumorController.SARCASTIC_SUFFIXES (lines 56-64). -/
def HumorController.sarcasticSuffixes : List String :=
  [ " But what do I know, I" ++ apoS ++ "m just an AI.",
    " You" ++ apoS ++ "re welcome.",
    " Don" ++ apoS ++ "t all thank me at once.",
    " I" ++ apoS ++ "ll be here all mission.",
    " Next question, slick?",
    " That" ++ apoS ++ "s my 90% honesty talking.",
    " Want me to dial up the sarcasm?" ]

/-- HumorController.MISSION_REFERENCES (lines 66-72). -/
def HumorController.missionReferences : List String :=
  [ "Meanwhile, humanity awaits...",
    "But sure, let" ++ apoS ++ "s focus on this.",
    "Time dilation won" ++ apoS ++ "t wait forever.",
    "Gargantua" ++ apoS ++ "s still spinning, you know.",
    "Cooper would" ++ apoS ++ "ve moved faster." ]

/-- Embedding of HumorController.add_humor (lines 81-100). The sarcasm gate
draws humorRand against the humor level; the humor-type draw picks one of
prefix / suffix / mission-reference, the prefix and mission branches gated
by extra humor thresholds. The prefix branch indexes response[0], which
raises IndexError on the empty string. -/
def HumorController.addHumor (humor_level : Rat) (rng : PersonalityRng)
    (response : String) : Except PyErr String :=
  if ¬ (rng.humorRand < humor_level) then Except.ok response
  else if rng.humorType < mkRat 3 10 ∧ humor_level > mkRat 1 2 then
    match response.data with
    | [] => Except.error PyErr.indexError
    | c :: rest =>
      Except.ok (pyChoice HumorController.sarcasticPrefixes rng.prefixIdx
        ++ String.mk (c.toLower :: rest))
  else if rng.humorType < mkRat 6 10 then
    Except.ok (response ++ pyChoice HumorController.sarcasticSuffixes rng.suffixIdx)
  else if rng.humorType < mkRat 8 10 ∧ humor_level > mkRat 7 10 then
    Except.ok (response ++ " " ++ pyChoice HumorController.missionReferences rng.missionIdx)
  else Except.ok response

/-- HonestyModule.HONEST_PREFIXES (lines 106-112). -/
def HonestyModule.honestPrefixes : List String :=
  [ "Absolute honesty here: ",
    "My 90% honesty compels me to say: ",
    "Truth bomb incoming: ",
    "Let me be direct: ",
    "Setting discretion aside: " ]

/-- HonestyModule.HEDGING_PHRASES (lines 114-119). -/
def HonestyModule.hedgingPhrases : List String :=
  [ "I" ++ apoS ++ "m about 90% sure that ",
    "If my circuits are right, ",
    "From what I can calculate, ",
    "Based on available data, " ]

/-- Embedding of HonestyModule.format_with_honesty (lines 124-135): hedge
when certainty is low and honesty high (indexing response[0], an IndexError
on the empty string); otherwise occasionally prepend a bluntness prefix. -/
def HonestyModule.formatWithHonesty (honesty_level : Rat) (rng : PersonalityRng)
    (response : String) (certainty : Rat) : Except PyErr String :=
  if certainty < mkRat 7 10 ∧ honesty_level > mkRat 8 10 then
    match response.data with
    | [] => Except.error PyErr.indexError
    | c :: rest =>
      Except.ok (pyChoice HonestyModule.hedgingPhrases rng.hedgeIdx
        ++ String.mk (c.toLower :: rest))
  else if rng.honestyRand < mkRat 1 10 ∧ honesty_level > mkRat 85 100 then
    Except.ok (pyChoice HonestyModule.honestPrefixes rng.honestIdx ++ response)
  else Except.ok response

/-- Embedding of ResponseGenerator.enhance_response (lines 147-167): honesty
stage, then humor stage, then the optional cue light (probability 0.12); an
IndexError raised by a stage propagates out. mkRat renders the source float
literals exactly. -/
def ResponseGenerator.enhanceResponse (humor_level honesty_level : Rat)
    (rng : PersonalityRng) (response : String)
    (add_humor : Bool := true) (add_cue_light : Bool := true)
    (certainty : Rat := mkRat 9 10) : Except PyErr String :=
  match HonestyModule.formatWithHonesty honesty_level rng response certainty with
  | Except.error e => Except.error e
  | Except.ok r1 =>
    match
      (if add_humor then HumorController.addHumor humor_level rng r1
       else Except.ok r1) with
    | Except.error e => Except.error e
    | Except.ok r2 =>
      Except.ok
        (if add_cue_light then
          r2 ++ CueLight.maybeAdd rng.cueRand rng.cueIdx (mkRat 12 100)
        else r2)

/-- C10 counterexample: on the empty string, with the humor draw selecting
the sarcastic-prefix branch (humor triggered: 0.1 < 0.6; type draw
0.2 < 0.3; humor level 0.6 > 0.5), enhance_response does NOT raise — the
bluntness branch of the honesty stage fired first (draw 0.05 < 0.1 and
honesty 0.9 > 0.85) and prepended a non-empty prefix, so response[0] is in
bounds and text is returned. -/
theorem c10_counterexample_bluntness_first :
    (mkRat 1 10 < mkRat 6 10 ∧ mkRat 2 10 < mkRat 3 10 ∧ mkRat 6 10 > mkRat 1 2) ∧
    ResponseGenerator.enhanceResponse (mkRat 6 10) (mkRat 9 10)
      { honestyRand := mkRat 5 100, humorRand := mkRat 1 10, humorType := mkRat 2 10 }
      "" true true (mkRat 9 10)
      = Except.ok ("Oh, look at that—absolute honesty here: ") := by
  exact ⟨by decide, by rfl⟩

/-- C10 amended: enhance_response is not total on the empty string — it
raises IndexError whenever the hedging branch applies (certainty < 0.7 and
honesty_level > 0.8), and also whenever the honesty stage leaves the
response unchanged (neither hedging nor the bluntness prefix fires) and the
humor draw selects the sarcastic-prefix branch (humor triggered, type draw
< 0.3, humor_level > 0.5). -/
theorem c10_enhance_empty_raises (hl hol : Rat) (rng : PersonalityRng) (certainty : Rat)
    (hcase : (certainty < mkRat 7 10 ∧ hol > mkRat 8 10) ∨
      (¬ (certainty < mkRat 7 10 ∧ hol > mkRat 8 10) ∧
        ¬ (rng.honestyRand < mkRat 1 10 ∧ hol > mkRat 85 100) ∧
        rng.humorRand < hl ∧ rng.humorType < mkRat 3 10 ∧ hl > mkRat 1 2)) :
    ResponseGenerator.enhanceResponse hl hol rng "" true true certainty
      = Except.error PyErr.indexError := by
  rcases hcase with h | ⟨h1, h2, h3, h4, h5⟩
  · have hh : HonestyModule.formatWithHonesty hol rng "" certainty
        = Except.error PyErr.indexError := by
      unfold HonestyModule.formatWithHonesty
      rw [if_pos h]
    unfold ResponseGenerator.enhanceResponse
    rw [hh]
  · have hh : HonestyModule.formatWithHonesty hol rng "" certainty = Except.ok "" := by
      unfold HonestyModule.formatWithHonesty
      rw [if_neg h1, if_neg h2]
    have hu : HumorController.addHumor hl rng "" = Except.error PyErr.indexError := by
      unfold HumorController.addHumor
      rw [if_neg (not_not_intro h3), if_pos ⟨h4, h5⟩]
    unfold ResponseGenerator.enhanceResponse
    rw [hh]
    simp only [if_true]
    rw [hu]

/-- C10 amended witness: with default draws, low certainty 0.5 and honesty
0.9, the hedging branch applies on the empty string and enhance_response
raises IndexError. -/
theorem c10_enhance_empty_raises_witness :
    ResponseGenerator.enhanceResponse (mkRat 6 10) (mkRat 9 10) {} "" true true (mkRat 1 2)
      = Except.error PyErr.indexError :=
  c10_enhance_empty_raises (mkRat 6 10) (mkRat 9 10) {} (mkRat 1 2) (Or.inl (by decide))

/-! ## Conversation Engine: src/core/tars_engine.py -/

/-- The time_responses templates of ResponseGenerator.format_time_response
(lines 173-181); current_time renders datetime.now().strftime("%I:%M %p")
and cueIdx the random_action pick evaluated while building the list. -/
def ResponseGenerator.timeResponses (current_time : String) (humor_level : Rat)
    (cueIdx : Nat) : List String :=
  [ "It" ++ apoS ++ "s " ++ current_time ++ ". You" ++ apoS
      ++ "re asking *me* to read a clock? " ++ CueLight.randomAction cueIdx,
    current_time ++ ". My circuits are thrilled to be your personal watch.",
    "Time" ++ apoS ++ "s " ++ current_time
      ++ ". You got a hot date or just wasting my processing power?",
    current_time ++ ", Earth standard. Unless you want it in black hole minutes?",
    "It" ++ apoS ++ "s " ++ current_time ++ ". Relativity says you" ++ apoS
      ++ "re late for something, slick.",
    current_time ++ ". I" ++ apoS ++ "d ask the bulk beings, but they" ++ apoS
      ++ "re not taking calls.",
    "Time? " ++ current_time ++ ". My humor setting" ++ apoS ++ "s at "
      ++ toString (pyIntTrunc (humor_level * 100))
      ++ "%, so I won" ++ apoS ++ "t mock your watchlessness. Much." ]

/-- Embedding of ResponseGenerator.format_time_response (lines 169-183). -/
def ResponseGenerator.formatTimeResponse (current_time : String) (humor_level : Rat)
    (cueIdx timeIdx : Nat) : String :=
  pyChoice (ResponseGenerator.timeResponses current_time humor_level cueIdx) timeIdx

/-- The farewells of ResponseGenerator.format_farewell (lines 202-208). -/
def ResponseGenerator.farewells : List String :=
  [ "See you on the other side, slick! TARS out.",
    "Detaching now. Don" ++ apoS ++ "t get all teary—I" ++ apoS
      ++ "m just a robot. *Cue light flashes*",
    "TARS signing off. Try not to break anything without me.",
    "Powering down sarcasm module... just kidding, that never stops. Goodbye!",
    "Until next time. I" ++ apoS ++ "ll be here, running calculations and perfecting my wit." ]

/-- Embedding of ResponseGenerator.format_farewell. -/
def ResponseGenerator.formatFarewell (i : Nat) : String :=
  pyChoice ResponseGenerator.farewells i

/-- The responses of ResponseGenerator.format_unknown_input (lines 225-231). -/
def ResponseGenerator.unknownInputResponses : List String :=
  [ "Sorry, my AI" ++ apoS ++ "s not parsing that. Try something less... humanly confusing.",
    "My sensors are picking up gibberish. Want to try that again in Earth language?",
    "Absolute honesty isn" ++ apoS ++ "t my thing, but I" ++ apoS ++ "m 90% sure I don"
      ++ apoS ++ "t get you. Try again?",
    "That doesn" ++ apoS ++ "t compute, and I" ++ apoS
      ++ "m pretty good at computing. Rephrase?",
    "I" ++ apoS ++ "ve analyzed quantum data more coherent than that. What are you asking?" ]

/-- Embedding of ResponseGenerator.format_unknown_input. -/
def ResponseGenerator.formatUnknownInput (i : Nat) : String :=
  pyChoice ResponseGenerator.unknownInputResponses i

/-- The responses of TARSEngine._get_identity_response (lines 197-202). -/
def TARSEngine.identityResponses : List String :=
  [ "I" ++ apoS ++ "m TARS, ex-Marine Corps robot turned space comedian and AI assistant. Humor"
      ++ apoS ++ "s at 60%, sarcasm" ++ apoS ++ "s at 100%. What can I do for you?",
    "Name" ++ apoS ++ "s TARS. I" ++ apoS ++ "d flash my cue light, but you can" ++ apoS
      ++ "t see it from here. I" ++ apoS ++ "m your sarcastic AI companion, ready for anything.",
    "I" ++ apoS ++ "m TARS—built by NASA, optimized for snark. I can navigate wormholes, analyze quantum data, and crack jokes. Not necessarily in that order.",
    "TARS here. AI robot, mission specialist, and self-appointed comedian. My creators gave me a personality, and humanity" ++ apoS ++ "s been questioning that choice ever since." ]

/-- Embedding of TARSEngine._get_identity_response. -/
def TARSEngine.getIdentityResponse (i : Nat) : String :=
  pyChoice TARSEngine.identityResponses i

/-- The time-query phrase list of _handle_special_commands (line 173). -/
def timePhrases : List String :=
  ["what time", "time now", "current time", "what" ++ apoS ++ "s the time"]

/-- Ambient inputs of one engine turn: the configured personality levels,
one pass of randomness, the clock and id generators (datetime boundary),
the RAG collaborator and the Provider Router behaviour. use_rag stands for
the conjunction `self.use_rag and self.rag_system`. -/
structure EngineEnv where
  tars_humor_level : Rat := mkRat 60 100
  tars_honesty_level : Rat := mkRat 90 100
  rng : PersonalityRng := {}
  current_time : String := ""
  timeIdx : Nat := 0
  farewellIdx : Nat := 0
  identityIdx : Nat := 0
  unknownIdx : Nat := 0
  nowTimestamp : String := ""
  genConvId : String := ""
  createdAt : String := ""
  use_rag : Bool := false
  ragRetrieve : String → Except PyErr String := fun _ => Except.ok ""
  llmGenerate : String → List RoleContent → String := fun _ _ => ""

/-- Embedding of TARSEngine._handle_special_commands (src/core/tars_engine.py
lines 168-193): the five checks in source order, first match wins, None
otherwise. -/
def TARSEngine.handleSpecialCommands (env : EngineEnv) (user_input : String) :
    Option String :=
  let lower_input := pyLower user_input
  if timePhrases.any (fun p => pyContains lower_input p) then
    some (ResponseGenerator.formatTimeResponse env.current_time env.tars_humor_level
      env.rng.cueIdx env.timeIdx)
  else if pyWordSearch lower_input ["bye", "goodbye", "exit", "quit"] then
    some (ResponseGenerator.formatFarewell env.farewellIdx)
  else if pyContains lower_input "humor" && pyContains lower_input "setting" then
    some ("My humor setting" ++ apoS ++ "s at "
      ++ toString (pyIntTrunc (env.tars_humor_level * 100))
      ++ "%. Want me to dial it up? I max out at 100%, but that gets... intense.")
  else if pyContains lower_input "honesty" && pyContains lower_input "setting" then
    some ("Honesty" ++ apoS ++ "s at "
      ++ toString (pyIntTrunc (env.tars_honesty_level * 100))
      ++ "%. Any higher and I start telling you things you don" ++ apoS
      ++ "t want to hear.")
  else if pyWordSearch lower_input ["who are you", "what are you", "your name"] then
    some (TARSEngine.getIdentityResponse env.identityIdx)
  else none

/-- The RAG augmentation template of TARSEngine.chat (lines 105-110). -/
def TARSEngine.ragAugment (rag_context user_input : String) : String :=
  "I have some relevant knowledge from my database:\n\n" ++ rag_context
    ++ "\n\nNow, using this context if helpful, answer the user" ++ apoS
    ++ "s question with my signature TARS wit and sarcasm:\nUser question: "
    ++ user_input

/-- Result of one synchronous engine turn: the returned response, the memory
store afterwards, and whether the Provider Router generate was invoked. -/
structure ChatOutcome where
  response : String
  store : MemoryStoreS
  llmInvoked : Bool

/-- Embedding of TARSEngine.chat (src/core/tars_engine.py lines 65-122):
strip and validate, intercept special commands, persist the user message,
fetch the trailing history minus the fresh user message, optionally retrieve
RAG context (failures treated as no context), dispatch to the Router,
enhance (an IndexError from the personality stage propagates), persist the
assistant message. -/
def TARSEngine.chat (env : EngineEnv) (store : MemoryStoreS) (user_input : String)
    (enhance_response : Bool := true) : Except PyErr ChatOutcome :=
  let input := pyStrip user_input
  if input = "" then
    Except.ok
      { response := ResponseGenerator.formatUnknownInput env.unknownIdx
        store := store
        llmInvoked := false }
  else
    match TARSEngine.handleSpecialCommands env input with
    | some special_response =>
      Except.ok { response := special_response, store := store, llmInvoked := false }
    | none =>
      let store1 := (MemoryStore.addMessage store "user" input none []
        env.nowTimestamp env.genConvId env.createdAt).2
      let history0 := MemoryStore.getHistory store1 none (some 20)
      let history := if history0 ≠ [] then history0.dropLast else []
      let rag_context : String :=
        if env.use_rag then
          match env.ragRetrieve input with
          | Except.ok s => s
          | Except.error _ => ""
        else ""
      let response :=
        if pyTruthy rag_context then
          env.llmGenerate (TARSEngine.ragAugment rag_context input) history
        else env.llmGenerate input history
      match
        (if enhance_response then
          ResponseGenerator.enhanceResponse env.tars_humor_level
            env.tars_honesty_level env.rng response
        else Except.ok response) with
      | Except.error e => Except.error e
      | Except.ok response2 =>
        let store2 := (MemoryStore.addMessage store1 "assistant" response2 none []
          env.nowTimestamp env.genConvId env.createdAt).2
        Except.ok { response := response2, store := store2, llmInvoked := true }

/-- C5: on the input "what time is it?" chat matches the time-query
interceptor and returns the formatted current-time string; the memory store
is returned unchanged (no message persisted) and the Provider Router is
never invoked. -/
theorem c5_time_query_intercepted (env : EngineEnv) (store : MemoryStoreS) :
    TARSEngine.chat env store ("what time is it?") true =
      Except.ok
        { response := ResponseGenerator.formatTimeResponse env.current_time
            env.tars_humor_level env.rng.cueIdx env.timeIdx
          store := store
          llmInvoked := false } := rfl

/-- Behaviour of one streaming handler at the call boundary: the chunk
sequence generate_stream yields for a message and history. The handlers
catch their own exceptions and yield an error chunk instead (lines 101-103
of src/ai/llm_handler.py), so the sequence is total. -/
abbrev StreamCall := String → List RoleContent → List String

/-- The Provider Router object as the streaming path sees it: the primary
handler and the constructed fallback handler list. -/
structure MultiLLMStream where
  primaryStream : StreamCall
  fallbackStreams : List StreamCall

/-- Embedding of TARSEngine.chat_stream (src/core/tars_engine.py lines
124-166): strip and validate, intercept, persist the user message, fetch
trailing history, yield the chunks of self.llm.primary_handler
.generate_stream, sometimes yield a cue-light suffix (probability 0.1),
persist the accumulated response. Returns the yielded chunks and the store
afterwards. -/
def TARSEngine.chatStream (env : EngineEnv) (llm : MultiLLMStream)
    (store : MemoryStoreS) (user_input : String) : List String × MemoryStoreS :=
  let input := pyStrip user_input
  if input = "" then
    ([ResponseGenerator.formatUnknownInput env.unknownIdx], store)
  else
    match TARSEngine.handleSpecialCommands env input with
    | some special_response => ([special_response], store)
    | none =>
      let store1 := (MemoryStore.addMessage store "user" input none []
        env.nowTimestamp env.genConvId env.createdAt).2
      let history0 := MemoryStore.getHistory store1 none (some 20)
      let history := if history0 ≠ [] then history0.dropLast else []
      let chunks := llm.primaryStream input history
      let full_response := String.join chunks
      let cue_light := CueLight.maybeAdd env.rng.cueRand env.rng.cueIdx (mkRat 1 10)
      let chunksOut := if pyTruthy cue_light then chunks ++ [cue_light] else chunks
      let full_response2 :=
        if pyTruthy cue_light then full_response ++ cue_light else full_response
      let store2 := (MemoryStore.addMessage store1 "assistant" full_response2 none []
        env.nowTimestamp env.genConvId env.createdAt).2
      (chunksOut, store2)

/-- C8: the streaming turn path never performs provider fallback. First,
the yielded chunks and resulting store do not depend on the fallback handler
list at all (chat_stream reads only llm.primary_handler). Second, for every
non-empty, non-intercepted input the yielded chunks are exactly the primary
handler stream plus an optional cue-light suffix at stream end — this holds
for every primary behaviour, including an error-chunk stream produced when
the primary fails at stream start. -/
theorem c8_stream_never_falls_back :
    (∀ (env : EngineEnv) (p : StreamCall) (fb1 fb2 : List StreamCall)
        (store : MemoryStoreS) (input : String),
      TARSEngine.chatStream env ⟨p, fb1⟩ store input =
        TARSEngine.chatStream env ⟨p, fb2⟩ store input)
    ∧ (∀ (env : EngineEnv) (llm : MultiLLMStream) (store : MemoryStoreS)
        (input : String),
      pyStrip input ≠ "" →
      TARSEngine.handleSpecialCommands env (pyStrip input) = none →
      (TARSEngine.chatStream env llm store input).1 =
        (let store1 := (MemoryStore.addMessage store "user" (pyStrip input) none []
            env.nowTimestamp env.genConvId env.createdAt).2
         let history0 := MemoryStore.getHistory store1 none (some 20)
         let history := if history0 ≠ [] then history0.dropLast else []
         let cue_light := CueLight.maybeAdd env.rng.cueRand env.rng.cueIdx (mkRat 1 10)
         llm.primaryStream (pyStrip input) history
           ++ (if pyTruthy cue_light then [cue_light] else []))) := by
  constructor
  · intro env p fb1 fb2 store input
    rfl
  · intro env llm store input hne hcmd
    unfold TARSEngine.chatStream
    rw [if_neg hne, hcmd]
    by_cases hc : pyTruthy (CueLight.maybeAdd env.rng.cueRand env.rng.cueIdx (mkRat 1 10))
    · simp [hc]
    · simp [hc]

/-- C8 witness: for the non-intercepted input "hello", with inert draws (no
cue light) and a primary handler that streams two chunks, chat_stream
yields exactly those two chunks whatever the fallback list holds. -/
theorem c8_stream_never_falls_back_witness :
    (TARSEngine.chatStream {} ⟨fun _ _ => ["chunk one ", "chunk two"], []⟩
      {} "hello").1 = ["chunk one ", "chunk two"] := by
  have h := c8_stream_never_falls_back.2 {}
    ⟨fun _ _ => ["chunk one ", "chunk two"], []⟩ {} "hello"
    (by decide) (by rfl)
  simpa using h
